import Mathlib

/-!
Verification development for the False-Positive Classification & Recurrence
Analytics Engine.

The definitions below are a shallow embedding of the TypeScript sources:

* `backend/src/utils/fp-scoring.utils.ts` (namespace `FpUtils`): the standalone
  scoring utilities `calculateFPScore`, `classifyByScore`,
  `detectAutoRemediation`, `calculateConfidence`.
* `services/false-positive.service.ts` (namespace `FpService`): the service
  copy of the scorer, the per-record summary fold `calculateSummary`, the
  MongoDB-aggregation fast path `getSummaryFast`, and the entity recurrence
  analyzer `analyzeEntityRecurrence`.
* `backend/src/controllers/false-positive.controller.ts`: the threshold update
  endpoint `updateThresholds` over the service state mutator `setThresholds`.

JavaScript numbers are modelled as exact rationals (`ℚ`), strings as `String`,
optional / possibly-missing fields as `Option`.  Stateful pieces (the shared
threshold configuration, the MongoDB collection) are modelled by explicit
state passing: the persisted store becomes a `List Problem` argument and the
aggregation pipelines become pure functions over that list.
-/

/-! ## JavaScript string and option primitives -/

/-- Model of JavaScript `toLowerCase` (ASCII case folding, as in `Char.toLower`;
the source only compares ASCII keyword strings plus the pre-lowercased token
literal with an accented i). -/
def lowerStr (s : String) : String := ⟨s.data.map Char.toLower⟩

/-- Does the character list `hay` contain `pat` as a contiguous sublist? -/
def charsContain (hay pat : List Char) : Bool :=
  match hay with
  | [] => pat.isEmpty
  | _ :: t => pat.isPrefixOf hay || charsContain t pat

/-- Model of JavaScript `String.prototype.includes`. -/
def strContains (s pat : String) : Bool := charsContain s.data pat.data

/-- JavaScript `keywords.some(kw => s.includes(kw))`. -/
def anyKeyword (kws : List String) (s : String) : Bool :=
  kws.any (fun kw => strContains s kw)

/-- JavaScript `x || 0` on an optional numeric field (`undefined` becomes `0`,
and `0 || 0` is `0` as well, so `some v ↦ v` is faithful). -/
def durOr0 : Option ℚ → ℚ
  | none => 0
  | some v => v

/-- JavaScript `String(x || '')` on an optional string field. -/
def strOrEmpty : Option String → String
  | none => ""
  | some s => s

/-- Digit characters of `n` (auxiliary, structurally recursive on a fuel that
dominates the digit count). -/
def natDigitsAux : ℕ → ℕ → List Char
  | 0, _ => []
  | fuel + 1, n =>
      if n < 10 then [Nat.digitChar n]
      else natDigitsAux fuel (n / 10) ++ [Nat.digitChar (n % 10)]

/-- Decimal rendering of a natural number. -/
def natToStr (n : ℕ) : String := ⟨natDigitsAux (n + 1) n⟩

/-- `toFixed(2)` for a nonnegative rational: the ECMAScript spec picks the
integer `n` with `n / 100` closest to `x`, ties towards the larger `n`,
which is `⌊100 x + 1/2⌋`. -/
def toFixed2Abs (x : ℚ) : String :=
  let n : ℕ := (⌊100 * x + 1/2⌋).toNat
  natToStr (n / 100) ++ "." ++
    (if n % 100 < 10 then "0" ++ natToStr (n % 100) else natToStr (n % 100))

/-- Model of JavaScript `Number.prototype.toFixed(2)`: negative inputs are
rendered as a minus sign followed by the rendering of the absolute value. -/
def toFixed2 (q : ℚ) : String :=
  if q < 0 then "-" ++ toFixed2Abs (-q) else toFixed2Abs q

/-! ## Data model (`problem.types.ts`, `false-positive.types.ts`) -/

/-- One entry of a problem comment digest. -/
structure CommentEntry where
  content : Option String := none
  context : Option String := none
deriving DecidableEq

/-- `problem.recentComments`. -/
structure RecentComments where
  totalCount : ℕ := 0
  comments : List CommentEntry := []
deriving DecidableEq

/-- `affectedEntities[i].entityId`. -/
structure EntityId where
  id : String := ""
  type : String := ""
deriving DecidableEq

/-- One affected infrastructure entity of a problem. -/
structure AffectedEntity where
  entityId : EntityId := {}
  name : Option String := none
deriving DecidableEq

/-- One property of an evidence detail (`detail.data.properties[i]`). -/
structure EvidenceProperty where
  value : Option String := none
deriving DecidableEq

/-- One evidence detail; `properties` models `detail.data?.properties || []`. -/
structure EvidenceDetail where
  properties : List EvidenceProperty := []
deriving DecidableEq

/-- `problem.evidenceDetails`. -/
structure EvidenceDetails where
  details : List EvidenceDetail := []
deriving DecidableEq

/-- A problem record as read by the scoring engine.  Enumerations
(status, severity) are kept as strings, as in the source string enums;
`Autoremediado` / `FuncionoAutoRemediacion` are the free-form auto-remediation
signal fields accessed through `problem as any`. -/
structure Problem where
  problemId : String := ""
  displayId : String := ""
  title : String := ""
  status : String := ""
  severityLevel : String := ""
  impactLevel : Option String := none
  startTime : Option String := none
  duration : Option ℚ := none
  affectedEntities : List AffectedEntity := []
  recentComments : Option RecentComments := none
  evidenceDetails : Option EvidenceDetails := none
  Autoremediado : Option String := none
  FuncionoAutoRemediacion : Option String := none
deriving DecidableEq

/-- `FPClassification` enum. -/
inductive FPClassification where
  | FALSE_POSITIVE
  | TRUE_POSITIVE
  | UNCERTAIN
deriving DecidableEq

/-- `FPReason` enum. -/
inductive FPReason where
  | VERY_SHORT_DURATION
  | SHORT_DURATION
  | AUTO_REMEDIATED
  | AUTO_REMEDIATION_SUCCESS
  | NO_COMMENTS
  | QUICK_MANUAL_CLOSE
  | LOW_SEVERITY
  | RESOURCE_CONTENTION
  | RECURRING_PATTERN
  | SPIKE_PATTERN
deriving DecidableEq

/-- `FP_REASON_LABELS`. -/
def FP_REASON_LABELS : FPReason → String
  | .VERY_SHORT_DURATION => "Duración muy corta (<5 min)"
  | .SHORT_DURATION => "Duración corta (5-15 min)"
  | .AUTO_REMEDIATED => "Auto-remediado"
  | .AUTO_REMEDIATION_SUCCESS => "Auto-remediación exitosa"
  | .NO_COMMENTS => "Sin comentarios/investigación"
  | .QUICK_MANUAL_CLOSE => "Cierre manual rápido"
  | .LOW_SEVERITY => "Severidad baja"
  | .RESOURCE_CONTENTION => "Contención de recursos"
  | .RECURRING_PATTERN => "Patrón recurrente"
  | .SPIKE_PATTERN => "Spike transitorio"

/-- `FPReasonDetail`. -/
structure FPReasonDetail where
  reason : FPReason
  label : String
  weight : ℚ
  details : String
deriving DecidableEq

/-- `FPScoreResult`. -/
structure FPScoreResult where
  score : ℚ
  classification : FPClassification
  reasons : List FPReasonDetail
  confidence : ℚ
deriving DecidableEq

/-- `FPThresholds`. -/
structure FPThresholds where
  veryShortDurationMinutes : ℚ
  shortDurationMinutes : ℚ
  mediumDurationMinutes : ℚ
  highRecurrenceCount : ℚ
  recurrenceWindowDays : ℚ
  fpScoreThreshold : ℚ
  uncertainThreshold : ℚ
deriving DecidableEq

/-- `DEFAULT_FP_THRESHOLDS`. -/
def DEFAULT_FP_THRESHOLDS : FPThresholds :=
  { veryShortDurationMinutes := 5
    shortDurationMinutes := 15
    mediumDurationMinutes := 60
    highRecurrenceCount := 5
    recurrenceWindowDays := 30
    fpScoreThreshold := 6/10
    uncertainThreshold := 3/10 }

/-- `Partial<FPThresholds>` as sent to the update endpoint: absent keys do not
overwrite. -/
structure PartialFPThresholds where
  veryShortDurationMinutes : Option ℚ := none
  shortDurationMinutes : Option ℚ := none
  mediumDurationMinutes : Option ℚ := none
  highRecurrenceCount : Option ℚ := none
  recurrenceWindowDays : Option ℚ := none
  fpScoreThreshold : Option ℚ := none
  uncertainThreshold : Option ℚ := none
deriving DecidableEq

/-- `FalsePositiveService.setThresholds`: `this.thresholds = { ...this.thresholds,
...thresholds }`, i.e. replace exactly the fields present in the partial. -/
def setThresholds (cur : FPThresholds) (p : PartialFPThresholds) : FPThresholds :=
  { veryShortDurationMinutes := p.veryShortDurationMinutes.getD cur.veryShortDurationMinutes
    shortDurationMinutes := p.shortDurationMinutes.getD cur.shortDurationMinutes
    mediumDurationMinutes := p.mediumDurationMinutes.getD cur.mediumDurationMinutes
    highRecurrenceCount := p.highRecurrenceCount.getD cur.highRecurrenceCount
    recurrenceWindowDays := p.recurrenceWindowDays.getD cur.recurrenceWindowDays
    fpScoreThreshold := p.fpScoreThreshold.getD cur.fpScoreThreshold
    uncertainThreshold := p.uncertainThreshold.getD cur.uncertainThreshold }

/-- `FalsePositiveController.updateThresholds` (lines 493–519): validate only
that a supplied `fpScoreThreshold` lies in `[0,1]`; on violation answer HTTP
400 without touching the service state, otherwise call `setThresholds`.
The boolean result models `success`. -/
def updateThresholds (cur : FPThresholds) (p : PartialFPThresholds) :
    Bool × FPThresholds :=
  match p.fpScoreThreshold with
  | some v =>
      if v < 0 ∨ v > 1 then (false, cur) else (true, setThresholds cur p)
  | none => (true, setThresholds cur p)

/-! ## Shared field accessors -/

/-- `problem.recentComments?.totalCount || 0`. -/
def commentCountOf (p : Problem) : ℕ :=
  match p.recentComments with
  | none => 0
  | some rc => rc.totalCount

/-- `problem.recentComments?.comments || []`. -/
def commentsOf (p : Problem) : List CommentEntry :=
  match p.recentComments with
  | none => []
  | some rc => rc.comments

/-- The truthy-token set `AUTO_REMEDIATION_VALUES = ['si','sí','yes','true','1']`. -/
def AUTO_REMEDIATION_VALUES : List String := ["si", "sí", "yes", "true", "1"]

/-- `LOW_SEVERITY_LEVELS = ['RESOURCE_CONTENTION','PERFORMANCE']`. -/
def LOW_SEVERITY_LEVELS : List String := ["RESOURCE_CONTENTION", "PERFORMANCE"]

/-- Is the optional free-form field a truthy auto-remediation token
(`['si','sí','yes','true','1'].includes(String(x || '').toLowerCase())`)? -/
def isAutoRemToken (x : Option String) : Bool :=
  AUTO_REMEDIATION_VALUES.contains (lowerStr (strOrEmpty x))

/-! ## `fp-scoring.utils.ts` scorer -/

namespace FpUtils

/-- `detectAutoRemediation` (utils, lines 178–225).  Explicit-field branch when
`Autoremediado !== undefined`; otherwise scan comments for the utils keyword
lists, then apply the closed-implies-success assumption.  Result:
`(isAutoRemediated, wasSuccessful)`. -/
def detectAutoRemediation (p : Problem) : Bool × Bool :=
  match p.Autoremediado with
  | some v =>
      (AUTO_REMEDIATION_VALUES.contains (lowerStr v),
       isAutoRemToken p.FuncionoAutoRemediacion)
  | none =>
      let kws := ["autoremediado", "auto-remediado", "github actions",
                  "self-healing", "auto-fix", "automated fix"]
      let succ := ["exitosa", "successful", "completed", "fixed"]
      let r := (commentsOf p).foldl
        (fun (acc : Bool × Bool) c =>
          let combined :=
            lowerStr (strOrEmpty c.content) ++ " " ++ lowerStr (strOrEmpty c.context)
          if anyKeyword kws combined then (true, acc.2 || anyKeyword succ combined)
          else acc)
        (false, false)
      if r.1 && p.status == "CLOSED" && !r.2 then (r.1, true) else r

/-- `classifyByScore` (utils, lines 162–173). -/
def classifyByScore (score : ℚ) (t : FPThresholds) : FPClassification :=
  if score ≥ t.fpScoreThreshold then .FALSE_POSITIVE
  else if score ≥ t.uncertainThreshold then .UNCERTAIN
  else .TRUE_POSITIVE

/-- `calculateConfidence` (utils, lines 237–255). -/
def calculateConfidence (score : ℚ) (reasonCount : ℕ) (t : FPThresholds) : ℚ :=
  let distanceFromThreshold :=
    min |score - t.fpScoreThreshold| |score - t.uncertainThreshold|
  let confidence := min (1/2 + distanceFromThreshold) (8/10)
  min 1 (confidence + min ((reasonCount : ℚ) * (5/100)) (2/10))

/-- Duration branch of `calculateFPScore` (utils, lines 50–69): the contributed
weight together with the pushed reason entry. -/
def durationPart (t : FPThresholds) (duration : ℚ) : ℚ × List FPReasonDetail :=
  if duration < t.veryShortDurationMinutes then
    (35/100,
     [{ reason := .VERY_SHORT_DURATION
        label := FP_REASON_LABELS .VERY_SHORT_DURATION
        weight := 35/100
        details := "Duración: " ++ toFixed2 duration ++ " min" }])
  else if duration < t.shortDurationMinutes then
    (20/100,
     [{ reason := .SHORT_DURATION
        label := FP_REASON_LABELS .SHORT_DURATION
        weight := 20/100
        details := "Duración: " ++ toFixed2 duration ++ " min" }])
  else (0, [])

/-- The manual-close keyword scan of `calculateFPScore` step 4 (utils,
lines 110–117): some comment content contains one of the fixed keywords. -/
def hasManualCloseKeyword (p : Problem) : Bool :=
  (commentsOf p).any fun c =>
    anyKeyword ["false positive", "falso positivo", "not an issue", "cerrado manualmente"]
      (lowerStr (strOrEmpty c.content))

/-- `calculateFPScore` (utils, lines 41–157): additive weighted heuristic,
clamp to `[0,1]`, classify, compute confidence.  Each score contribution is a
`(weight, pushed reasons)` pair; the final score is the clamped sum and the
reason list is the concatenation in source order. -/
def calculateFPScore (p : Problem) (t : FPThresholds) : FPScoreResult :=
  let duration := durOr0 p.duration
  let dur := durationPart t duration
  let rem := detectAutoRemediation p
  let remPart : ℚ × List FPReasonDetail :=
    if rem.1 then
      if rem.2 then
        (25/100,
         [{ reason := .AUTO_REMEDIATION_SUCCESS
            label := FP_REASON_LABELS .AUTO_REMEDIATION_SUCCESS
            weight := 25/100
            details := "Auto-remediación exitosa detectada" }])
      else
        (15/100,
         [{ reason := .AUTO_REMEDIATED
            label := FP_REASON_LABELS .AUTO_REMEDIATED
            weight := 15/100
            details := "Auto-remediación intentada" }])
    else (0, [])
  let commentCount := commentCountOf p
  let noCommentsPart : ℚ × List FPReasonDetail :=
    if commentCount = 0 then
      (5/100,
       [{ reason := .NO_COMMENTS
          label := FP_REASON_LABELS .NO_COMMENTS
          weight := 5/100
          details := "Sin comentarios de investigación" }])
    else (0, [])
  let quickPart : ℚ × List FPReasonDetail :=
    if duration < 10 ∧ 0 < commentCount then
      if hasManualCloseKeyword p then
        (15/100,
         [{ reason := .QUICK_MANUAL_CLOSE
            label := FP_REASON_LABELS .QUICK_MANUAL_CLOSE
            weight := 15/100
            details := "Cerrado manualmente en " ++ toFixed2 duration ++ " min" }])
      else (0, [])
    else (0, [])
  let lowSevPart : ℚ × List FPReasonDetail :=
    if LOW_SEVERITY_LEVELS.contains p.severityLevel then
      (10/100,
       [{ reason := .LOW_SEVERITY
          label := FP_REASON_LABELS .LOW_SEVERITY
          weight := 10/100
          details := "Severidad: " ++ p.severityLevel }])
    else (0, [])
  let reasons := dur.2 ++ remPart.2 ++ noCommentsPart.2 ++ quickPart.2 ++ lowSevPart.2
  let score :=
    min 1 (max 0 (dur.1 + remPart.1 + noCommentsPart.1 + quickPart.1 + lowSevPart.1))
  { score := score
    classification := classifyByScore score t
    reasons := reasons
    confidence := calculateConfidence score reasons.length t }

end FpUtils

/-! ## `false-positive.service.ts` scorer -/

namespace FpService

/-- `AUTO_REMEDIATION_KEYWORDS` (service, lines 37–42). -/
def AUTO_REMEDIATION_KEYWORDS : List String :=
  ["autoremediado", "auto-remediado", "autoremediation", "self-remediation",
   "github actions", "remediación automática", "automatic remediation",
   "self healing", "auto healing", "automated fix", "auto-fix",
   "workflow completed", "remediation successful"]

/-- `AUTO_REMEDIATION_SUCCESS_KEYWORDS` (service, lines 44–47). -/
def AUTO_REMEDIATION_SUCCESS_KEYWORDS : List String :=
  ["exitosa", "successful", "completed successfully", "fixed",
   "resolved automatically", "auto-resolved", "funcionó"]

/-- `MANUAL_CLOSE_KEYWORDS` (service, lines 49–53). -/
def MANUAL_CLOSE_KEYWORDS : List String :=
  ["manually closed", "cerrado manualmente", "closed by user",
   "cerrado por usuario", "manual intervention", "false positive",
   "falso positivo", "not an issue", "expected behavior"]

/-- `detectAutoRemediation` (service, lines 398–439).  Unlike the utils copy,
the explicit-field branch fires only when `Autoremediado` is truthy (present
and a non-empty string); the fallback scans content and context with the
service keyword lists and then applies the closed-implies-success assumption. -/
def detectAutoRemediation (p : Problem) : Bool × Bool :=
  if strOrEmpty p.Autoremediado ≠ "" then
    (AUTO_REMEDIATION_VALUES.contains (lowerStr (strOrEmpty p.Autoremediado)),
     isAutoRemToken p.FuncionoAutoRemediacion)
  else
    let r := (commentsOf p).foldl
      (fun (acc : Bool × Bool) c =>
        let combined :=
          lowerStr (strOrEmpty c.content) ++ " " ++ lowerStr (strOrEmpty c.context)
        if anyKeyword AUTO_REMEDIATION_KEYWORDS combined then
          (true, acc.2 || anyKeyword AUTO_REMEDIATION_SUCCESS_KEYWORDS combined)
        else acc)
      (false, false)
    if r.1 && p.status == "CLOSED" && !r.2 then (r.1, true) else r

/-- `wasQuickManualClose` (service, lines 441–470): bail out when the raw
`duration` field is at least 10 (an absent field fails the `>= 10` comparison
in JavaScript, so the scan proceeds); then look for a manual-close keyword in
the comments (content and context) or in the evidence detail properties. -/
def wasQuickManualClose (p : Problem) : Bool :=
  match p.duration with
  | some d =>
      if d ≥ 10 then false else wasQuickManualCloseScan p
  | none => wasQuickManualCloseScan p
where
  wasQuickManualCloseScan (p : Problem) : Bool :=
    ((commentsOf p).any fun c =>
      anyKeyword MANUAL_CLOSE_KEYWORDS
        (lowerStr (strOrEmpty c.content) ++ " " ++ lowerStr (strOrEmpty c.context))) ||
    ((match p.evidenceDetails with
      | none => []
      | some ed => ed.details).any fun d =>
        d.properties.any fun prop =>
          MANUAL_CLOSE_KEYWORDS.any fun kw =>
            strContains (lowerStr (strOrEmpty prop.value)) kw)

/-- `calculateConfidence` (service, lines 472–489); textually identical to the
utils copy but reading the service thresholds. -/
def calculateConfidence (score : ℚ) (reasonCount : ℕ) (t : FPThresholds) : ℚ :=
  let distanceFromThreshold :=
    min |score - t.fpScoreThreshold| |score - t.uncertainThreshold|
  let confidence := min (1/2 + distanceFromThreshold) (8/10)
  min 1 (confidence + min ((reasonCount : ℚ) * (5/100)) (2/10))

/-- `calculateFPScore` (service, lines 263–374).  Same additive skeleton as the
utils scorer, but auto-remediation detection and the quick-manual-close check
use the service helpers, and classification is inlined (same cutoff logic). -/
def calculateFPScore (p : Problem) (t : FPThresholds) : FPScoreResult :=
  let duration := durOr0 p.duration
  let dur := FpUtils.durationPart t duration
  let rem := detectAutoRemediation p
  let remPart : ℚ × List FPReasonDetail :=
    if rem.1 then
      if rem.2 then
        (25/100,
         [{ reason := .AUTO_REMEDIATION_SUCCESS
            label := FP_REASON_LABELS .AUTO_REMEDIATION_SUCCESS
            weight := 25/100
            details := "Auto-remediación exitosa detectada" }])
      else
        (15/100,
         [{ reason := .AUTO_REMEDIATED
            label := FP_REASON_LABELS .AUTO_REMEDIATED
            weight := 15/100
            details := "Auto-remediación intentada" }])
    else (0, [])
  let commentCount := commentCountOf p
  let noCommentsPart : ℚ × List FPReasonDetail :=
    if commentCount = 0 then
      (5/100,
       [{ reason := .NO_COMMENTS
          label := FP_REASON_LABELS .NO_COMMENTS
          weight := 5/100
          details := "Sin comentarios de investigación" }])
    else (0, [])
  let quickPart : ℚ × List FPReasonDetail :=
    if wasQuickManualClose p then
      (15/100,
       [{ reason := .QUICK_MANUAL_CLOSE
          label := FP_REASON_LABELS .QUICK_MANUAL_CLOSE
          weight := 15/100
          details := "Cerrado manualmente en " ++ toFixed2 duration ++ " min" }])
    else (0, [])
  let lowSevPart : ℚ × List FPReasonDetail :=
    if LOW_SEVERITY_LEVELS.contains p.severityLevel then
      (10/100,
       [{ reason := .LOW_SEVERITY
          label := FP_REASON_LABELS .LOW_SEVERITY
          weight := 10/100
          details := "Severidad: " ++ p.severityLevel }])
    else (0, [])
  let reasons := dur.2 ++ remPart.2 ++ noCommentsPart.2 ++ quickPart.2 ++ lowSevPart.2
  let score :=
    min 1 (max 0 (dur.1 + remPart.1 + noCommentsPart.1 + quickPart.1 + lowSevPart.1))
  let classification :=
    if score ≥ t.fpScoreThreshold then FPClassification.FALSE_POSITIVE
    else if score ≥ t.uncertainThreshold then FPClassification.UNCERTAIN
    else FPClassification.TRUE_POSITIVE
  { score := score
    classification := classification
    reasons := reasons
    confidence := calculateConfidence score reasons.length t }

end FpService

/-! ## Summary aggregation: per-record fold vs MongoDB fast path -/

/-- Sum of a list of rationals (accumulator fold, as the source loops do). -/
def sumQ (l : List ℚ) : ℚ := l.foldl (· + ·) 0

/-- The numeric portion of `FPAnalyticsSummary` that `getSummaryFast` computes:
total, classification counts, auto-remediation rate, average score and the
five duration-bucket counts.  `calculateSummaryCore` below is the projection
of the service `calculateSummary` fold onto these same fields. -/
structure SummaryCore where
  totalProblems : ℕ
  falsePositives : ℕ
  truePositives : ℕ
  uncertain : ℕ
  autoRemediationRate : ℚ
  avgFPScore : ℚ
  durationLt5 : ℕ
  duration5to15 : ℕ
  duration15to60 : ℕ
  duration1to4h : ℕ
  durationGt4h : ℕ
deriving DecidableEq

/-- Does a score result carry an auto-remediation reason (service
`calculateSummary`, lines 801–805)? -/
def hasAutoRemReason (r : FPScoreResult) : Bool :=
  r.reasons.any fun d =>
    d.reason = FPReason.AUTO_REMEDIATED ∨ d.reason = FPReason.AUTO_REMEDIATION_SUCCESS

/-- The duration bucket boundaries of `calculateSummary` (service,
lines 770–776): `<5`, `5–15`, `15–60`, `60–240`, `>240` minutes on
`problem.duration || 0`. -/
def durationBucketCounts (problems : List Problem) :
    ℕ × ℕ × ℕ × ℕ × ℕ :=
  (problems.countP fun p => durOr0 p.duration < 5,
   problems.countP fun p => ¬ durOr0 p.duration < 5 ∧ durOr0 p.duration < 15,
   problems.countP fun p => ¬ durOr0 p.duration < 15 ∧ durOr0 p.duration < 60,
   problems.countP fun p => ¬ durOr0 p.duration < 60 ∧ durOr0 p.duration < 240,
   problems.countP fun p => ¬ durOr0 p.duration < 240)

/-- Projection of `FalsePositiveService.calculateSummary` (service,
lines 723–881) onto `SummaryCore`: score every problem with the service
scorer, then fold classification counts, the auto-remediation rate (problems
whose reasons include an auto-remediation code), the average score, and the
duration buckets.  Empty input yields the all-zero summary
(`getEmptySummary`). -/
def calculateSummaryCore (t : FPThresholds) (problems : List Problem) : SummaryCore :=
  let total := problems.length
  if total = 0 then
    { totalProblems := 0, falsePositives := 0, truePositives := 0, uncertain := 0
      autoRemediationRate := 0, avgFPScore := 0
      durationLt5 := 0, duration5to15 := 0, duration15to60 := 0
      duration1to4h := 0, durationGt4h := 0 }
  else
    let results := problems.map fun p => FpService.calculateFPScore p t
    let buckets := durationBucketCounts problems
    { totalProblems := total
      falsePositives :=
        results.countP fun r => r.classification = FPClassification.FALSE_POSITIVE
      truePositives :=
        results.countP fun r => r.classification = FPClassification.TRUE_POSITIVE
      uncertain :=
        results.countP fun r => r.classification = FPClassification.UNCERTAIN
      autoRemediationRate := (results.countP hasAutoRemReason : ℚ) / total
      avgFPScore := sumQ (results.map FPScoreResult.score) / total
      durationLt5 := buckets.1
      duration5to15 := buckets.2.1
      duration15to60 := buckets.2.2.1
      duration1to4h := buckets.2.2.2.1
      durationGt4h := buckets.2.2.2.2 }

/-- The per-record score computed inside the `getSummaryFast` aggregation
pipeline (`$addFields.fpScore`, service lines 111–135): duration tier
`0.35 / 0.20 / 0.10 / 0`, token-based auto-remediation `0.25 / 0.10 / 0`,
low-severity `0.10`, no-comments `0.05`. -/
def fastFPScore (p : Problem) : ℚ :=
  (if durOr0 p.duration < 5 then 35/100
   else if durOr0 p.duration < 15 then 20/100
   else if durOr0 p.duration < 60 then 10/100
   else 0) +
  (if isAutoRemToken p.Autoremediado ∧ isAutoRemToken p.FuncionoAutoRemediacion then 25/100
   else if isAutoRemToken p.Autoremediado then 10/100
   else 0) +
  (if LOW_SEVERITY_LEVELS.contains p.severityLevel then 10/100 else 0) +
  (if commentCountOf p = 0 then 5/100 else 0)

/-- `FalsePositiveService.getSummaryFast` (service, lines 91–253), restricted
to its numeric outputs and modelled over the matched record set: classification
counts use the hard-coded cutoffs `0.6` / `0.3` on `fastFPScore`, the
auto-remediation rate counts records whose `Autoremediado` field is a truthy
token, and the duration buckets reuse the same boundaries as
`durationCategory`. -/
def getSummaryFast (problems : List Problem) : SummaryCore :=
  let total := problems.length
  { totalProblems := total
    falsePositives := problems.countP fun p => fastFPScore p ≥ 6/10
    truePositives := problems.countP fun p => fastFPScore p < 3/10
    uncertain := problems.countP fun p => 3/10 ≤ fastFPScore p ∧ fastFPScore p < 6/10
    autoRemediationRate :=
      if total = 0 then 0
      else (problems.countP fun p => isAutoRemToken p.Autoremediado : ℚ) / total
    avgFPScore :=
      if total = 0 then 0 else sumQ (problems.map fastFPScore) / total
    durationLt5 := problems.countP fun p => durOr0 p.duration < 5
    duration5to15 := problems.countP fun p => ¬ durOr0 p.duration < 5 ∧ durOr0 p.duration < 15
    duration15to60 := problems.countP fun p => ¬ durOr0 p.duration < 15 ∧ durOr0 p.duration < 60
    duration1to4h := problems.countP fun p => ¬ durOr0 p.duration < 60 ∧ durOr0 p.duration < 240
    durationGt4h := problems.countP fun p => ¬ durOr0 p.duration < 240 }

/-! ## Entity recurrence analysis (`analyzeEntityRecurrence`, service 498–638) -/

/-- The sub-record pushed per group member by the aggregation `$push`
(service, lines 527–537). -/
structure GroupedProblem where
  problemId : String := ""
  displayId : String := ""
  title : String := ""
  startTime : Option String := none
  duration : Option ℚ := none
  status : String := ""
  Autoremediado : Option String := none
deriving DecidableEq

/-- Projection of a problem onto the pushed sub-record. -/
def pushRecord (p : Problem) : GroupedProblem :=
  { problemId := p.problemId
    displayId := p.displayId
    title := p.title
    startTime := p.startTime
    duration := p.duration
    status := p.status
    Autoremediado := p.Autoremediado }

/-- The `$match` window stage on `startTime` (service, lines 502–511):
lexicographic bounds on the ISO timestamp string; a record without a
`startTime` field matches no bound. -/
def startTimeInWindow (dateFrom dateTo : Option String) (p : Problem) : Bool :=
  (match dateFrom with
   | none => true
   | some f => match p.startTime with
     | none => false
     | some s => f ≤ s) &&
  (match dateTo with
   | none => true
   | some upper => match p.startTime with
     | none => false
     | some s => s ≤ upper)

/-- `$unwind: '$affectedEntities'` with `preserveNullAndEmptyArrays: false`:
one row per (entity, problem) pair, none for problems without entities. -/
def unwindEntities (ps : List Problem) : List (AffectedEntity × GroupedProblem) :=
  ps.flatMap fun p => p.affectedEntities.map fun e => (e, pushRecord p)

/-- `$group: { _id: '$affectedEntities.entityId.id', ... }`: collect the rows
of each distinct entity id, keeping the first row's entity for the `$first`
accumulators and the push order of the members. -/
def groupByEntity :
    List (AffectedEntity × GroupedProblem) → List (AffectedEntity × List GroupedProblem)
  | [] => []
  | (e, g) :: rest =>
      (e, g :: (rest.filter fun x => x.1.entityId.id == e.entityId.id).map (·.2)) ::
      groupByEntity (rest.filter fun x => x.1.entityId.id != e.entityId.id)
termination_by l => l.length
decreasing_by
  simp only [List.length_cons]
  exact Nat.lt_succ_of_le (List.length_filter_le _ _)

/-- Entry of the recurrence result for the five most recent sample problems. -/
structure RecentProblemRef where
  problemId : String
  displayId : String
  title : String
  startTime : Option String
  duration : ℚ
  fpScore : ℚ
deriving DecidableEq

/-- `EntityRecurrenceAnalysis` (the mapped result record, service 611–636). -/
structure EntityRecurrenceAnalysis where
  entityId : String
  entityName : String
  entityType : String
  totalProblems : ℕ
  avgDurationMinutes : ℚ
  minDurationMinutes : ℚ
  maxDurationMinutes : ℚ
  autoRemediationRate : ℚ
  falsePositiveRate : ℚ
  recurrenceScore : ℚ
  problemTypes : List (String × ℕ)
  recentProblems : List RecentProblemRef
  recommendation : Option String
deriving DecidableEq

/-- The surrogate record built per grouped problem before re-scoring
(service, lines 563–577): the grouped problem's duration (defaulted to 0),
status and `Autoremediado` flag, severity hard-coded to
`RESOURCE_CONTENTION`, and an empty comment digest; every other field of the
original problem (including `FuncionoAutoRemediacion`) is absent. -/
def mockProblem (gp : GroupedProblem) : Problem :=
  { duration := some (durOr0 gp.duration)
    severityLevel := "RESOURCE_CONTENTION"
    status := gp.status
    recentComments := some { totalCount := 0, comments := [] }
    Autoremediado := gp.Autoremediado }

/-- Is a grouped problem classified `FALSE_POSITIVE` when the service scorer
runs on its surrogate record (service, lines 569–583)? -/
def mockIsFP (t : FPThresholds) (gp : GroupedProblem) : Bool :=
  (FpService.calculateFPScore (mockProblem gp) t).classification =
    FPClassification.FALSE_POSITIVE

/-- The title histogram accumulator (`problemTypes[p.title] =
(problemTypes[p.title] || 0) + 1`), keeping JavaScript object insertion
order. -/
def bumpTitle : List (String × ℕ) → String → List (String × ℕ)
  | [], t => [(t, 1)]
  | (s, n) :: rest, t =>
      if s == t then (s, n + 1) :: rest else (s, n) :: bumpTitle rest t

/-- The body of the result `map` of `analyzeEntityRecurrence` (service,
lines 555–637), applied to one `$group` output (first entity row plus the
pushed members).  The `$avg` / `$min` / `$max` accumulators ignore missing
durations and yield null (then `|| 0`) when no duration is present. -/
def recurrenceEntry (t : FPThresholds) (g : AffectedEntity × List GroupedProblem) :
    EntityRecurrenceAnalysis :=
  let e := g.1
  let members := g.2
  let totalProblems := members.length
  let autoRemediatedCount :=
    members.countP fun p => isAutoRemToken p.Autoremediado
  let fpCount := members.countP (mockIsFP t)
  let falsePositiveRate : ℚ :=
    if 0 < totalProblems then (fpCount : ℚ) / totalProblems else 0
  let presentDurations := members.filterMap (·.duration)
  let avgRaw : Option ℚ :=
    if presentDurations.isEmpty then none
    else some (sumQ presentDurations / presentDurations.length)
  let minRaw : Option ℚ :=
    match presentDurations with
    | [] => none
    | d :: rest => some (rest.foldl min d)
  let maxRaw : Option ℚ :=
    match presentDurations with
    | [] => none
    | d :: rest => some (rest.foldl max d)
  let recurrenceScore := min 1 ((totalProblems : ℚ) / t.highRecurrenceCount)
  let recommendation : Option String :=
    if falsePositiveRate > 7/10 then
      some ("Alta tasa de FP. Considere ajustar umbrales de alertas para esta entidad.")
    else if 10 < totalProblems ∧ (autoRemediatedCount : ℚ) / totalProblems > 8/10 then
      some ("Problemas frecuentes auto-remediados. Considere aumentar umbrales de detección.")
    else if (match avgRaw with | some a => decide (a < 5) | none => false) then
      some ("Problemas muy transitorios. Considere añadir delay antes de alertar.")
    else none
  { entityId := e.entityId.id
    entityName :=
      match e.name with
      | some n => if n = "" then "Unknown" else n
      | none => "Unknown"
    entityType := if e.entityId.type = "" then "Unknown" else e.entityId.type
    totalProblems := totalProblems
    avgDurationMinutes := avgRaw.getD 0
    minDurationMinutes := minRaw.getD 0
    maxDurationMinutes := maxRaw.getD 0
    autoRemediationRate :=
      if 0 < totalProblems then (autoRemediatedCount : ℚ) / totalProblems else 0
    falsePositiveRate := falsePositiveRate
    recurrenceScore := recurrenceScore
    problemTypes := members.foldl (fun acc p => bumpTitle acc p.title) []
    recentProblems :=
      (members.take 5).map fun p =>
        { problemId := p.problemId
          displayId := p.displayId
          title := p.title
          startTime := p.startTime
          duration := durOr0 p.duration
          fpScore := 0 }
    recommendation := recommendation }

/-- `FalsePositiveService.analyzeEntityRecurrence` (service, lines 498–638)
modelled over the stored record list: window match, unwind, group by entity
id, keep groups with at least 2 members, sort by member count descending,
cap at 50, and map each group to its analysis record. -/
def analyzeEntityRecurrence (t : FPThresholds) (ps : List Problem)
    (dateFrom dateTo : Option String) : List EntityRecurrenceAnalysis :=
  let grouped := groupByEntity (unwindEntities (ps.filter (startTimeInWindow dateFrom dateTo)))
  let filtered := grouped.filter fun g => 2 ≤ g.2.length
  let sorted := filtered.mergeSort fun a b => b.2.length ≤ a.2.length
  (sorted.take 50).map (recurrenceEntry t)

/-! ## Concrete evaluation fixtures -/

/-- Scenario A of the spec: duration 3 minutes, both auto-remediation signal
fields set to a truthy token, severity `RESOURCE_CONTENTION`, zero comments. -/
def scenarioA : Problem :=
  { duration := some 3
    Autoremediado := some ("Si")
    FuncionoAutoRemediacion := some ("Si")
    severityLevel := "RESOURCE_CONTENTION"
    status := "OPEN"
    recentComments := some { totalCount := 0, comments := [] } }

/-- A 30-minute problem with no comments, no remediation signals and a
non-low severity; the fast path and the scoring engine disagree on its
score (0.15 vs 0.05). -/
def p30 : Problem :=
  { duration := some 30
    severityLevel := "AVAILABILITY"
    status := "OPEN" }

/-- Problem template for the duration-normalization claim: severity `ERROR`,
no comments, no remediation signals, duration as given. -/
def c7Problem (d : Option ℚ) : Problem :=
  { duration := d
    severityLevel := "ERROR"
    status := "OPEN" }

/-- The recurrence fixture entity. -/
def recEntity : AffectedEntity :=
  { entityId := { id := "HOST-1", type := "HOST" }, name := some ("web-1") }

/-- Recurrence fixture: a problem on entity `HOST-1` whose actual record is
classified `UNCERTAIN` (duration 3, attempted-only remediation, one comment,
severity `ERROR`) while its recurrence surrogate is classified
`FALSE_POSITIVE`. -/
def recProblemA : Problem :=
  { problemId := "P-1"
    displayId := "P-1"
    title := "CPU saturation"
    status := "OPEN"
    severityLevel := "ERROR"
    startTime := some ("2024-09-01T00:00:00Z")
    duration := some 3
    affectedEntities := [recEntity]
    recentComments := some { totalCount := 1, comments := [{ content := some ("seguimiento en curso"), context := none }] }
    Autoremediado := some ("Si") }

/-- Second problem on the same entity, identical except for its id. -/
def recProblemB : Problem :=
  { recProblemA with problemId := "P-2", displayId := "P-2" }

/-- The partial update `SetThresholds({fpScoreThreshold: 1.5})`. -/
def setFP15 : PartialFPThresholds := { fpScoreThreshold := some (3/2) }

/-- The partial update `SetThresholds({uncertainThreshold: 0.9})`. -/
def setUnc09 : PartialFPThresholds := { uncertainThreshold := some (9/10) }

/-! ## Helper lemmas -/

/-- The clamp `Math.min(1, Math.max(0, x))` lands in `[0,1]`. -/
theorem clamp01_mem (x : ℚ) : 0 ≤ min 1 (max 0 x) ∧ min 1 (max 0 x) ≤ 1 :=
  ⟨le_min (by norm_num) (le_max_left _ _), min_le_left _ _⟩

/-- The confidence formula is bounded below by `1/2` and above by `1`. -/
theorem calculateConfidence_bounds (s : ℚ) (n : ℕ) (t : FPThresholds) :
    1/2 ≤ FpUtils.calculateConfidence s n t ∧ FpUtils.calculateConfidence s n t ≤ 1 := by
  simp only [FpUtils.calculateConfidence]
  constructor
  · have hdist : (0:ℚ) ≤ min |s - t.fpScoreThreshold| |s - t.uncertainThreshold| :=
      le_min (abs_nonneg _) (abs_nonneg _)
    have hbase : (1:ℚ)/2 ≤ min (1/2 + min |s - t.fpScoreThreshold| |s - t.uncertainThreshold|) (8/10) :=
      le_min (by linarith) (by norm_num)
    have hboost : (0:ℚ) ≤ min ((n : ℚ) * (5/100)) (2/10) :=
      le_min (by positivity) (by norm_num)
    exact le_min (by norm_num) (by linarith)
  · exact min_le_left _ _

/-- The service confidence formula coincides with the utils one. -/
theorem service_confidence_eq :
    FpService.calculateConfidence = FpUtils.calculateConfidence := rfl

/-- The utils scorer classifies its own score field with `classifyByScore`. -/
theorem utils_classification_eq (p : Problem) (t : FPThresholds) :
    (FpUtils.calculateFPScore p t).classification =
      FpUtils.classifyByScore (FpUtils.calculateFPScore p t).score t := rfl

/-- `classifyByScore` decides exactly the three threshold bands whenever the
uncertain cutoff does not exceed the false-positive cutoff. -/
theorem classifyByScore_spec (s : ℚ) (t : FPThresholds)
    (h1 : t.uncertainThreshold ≤ t.fpScoreThreshold) :
    (FpUtils.classifyByScore s t = FPClassification.FALSE_POSITIVE ↔ t.fpScoreThreshold ≤ s) ∧
    (FpUtils.classifyByScore s t = FPClassification.UNCERTAIN ↔
      t.uncertainThreshold ≤ s ∧ s < t.fpScoreThreshold) ∧
    (FpUtils.classifyByScore s t = FPClassification.TRUE_POSITIVE ↔ s < t.uncertainThreshold) := by
  simp only [FpUtils.classifyByScore]
  split_ifs with hA hB
  · refine ⟨by simp [hA], ?_, ?_⟩ <;> simp <;> intros <;> linarith
  · refine ⟨?_, ?_, ?_⟩ <;> simp_all
  · refine ⟨?_, ?_, ?_⟩ <;> simp_all

/-! ## C6: score and confidence are in the unit interval -/

/-- C6: for every problem and every threshold configuration, the utils scoring
engine returns a score in `[0,1]` and a confidence in `[0,1]`. -/
theorem fp_c6_score_confidence_bounds (p : Problem) (t : FPThresholds) :
    (0 ≤ (FpUtils.calculateFPScore p t).score ∧ (FpUtils.calculateFPScore p t).score ≤ 1) ∧
    (0 ≤ (FpUtils.calculateFPScore p t).confidence ∧
      (FpUtils.calculateFPScore p t).confidence ≤ 1) := by
  refine ⟨clamp01_mem _, ?_, ?_⟩
  · have h := (calculateConfidence_bounds
      (FpUtils.calculateFPScore p t).score
      ((FpUtils.calculateFPScore p t).reasons.length) t).1
    calc (0:ℚ) ≤ 1/2 := by norm_num
    _ ≤ _ := h
  · exact (calculateConfidence_bounds _ _ t).2

/-! ## C10: confidence is bounded below by 0.5 -/

/-- C10: for every problem and every threshold configuration, the confidence
returned by the scoring engine is at least `0.5`: the base term
`min(0.5 + distance, 0.8)` never drops below `0.5` and the reason-count boost
is nonnegative. -/
theorem fp_c10_confidence_ge_half (p : Problem) (t : FPThresholds) :
    1/2 ≤ (FpUtils.calculateFPScore p t).confidence :=
  (calculateConfidence_bounds _ _ t).1

/-! ## C3: classification consistency -/

/-- C3: for every problem and valid threshold configuration
(`0 ≤ uncertain ≤ fpScore ≤ 1`), the returned classification is
`FALSE_POSITIVE` iff `score ≥ fpScoreThreshold`, `UNCERTAIN` iff
`uncertainThreshold ≤ score < fpScoreThreshold`, and `TRUE_POSITIVE` iff
`score < uncertainThreshold`. -/
theorem fp_c3_classification_consistency (p : Problem) (t : FPThresholds)
    (h0 : 0 ≤ t.uncertainThreshold)
    (h1 : t.uncertainThreshold ≤ t.fpScoreThreshold)
    (h2 : t.fpScoreThreshold ≤ 1) :
    ((FpUtils.calculateFPScore p t).classification = FPClassification.FALSE_POSITIVE ↔
      t.fpScoreThreshold ≤ (FpUtils.calculateFPScore p t).score) ∧
    ((FpUtils.calculateFPScore p t).classification = FPClassification.UNCERTAIN ↔
      t.uncertainThreshold ≤ (FpUtils.calculateFPScore p t).score ∧
        (FpUtils.calculateFPScore p t).score < t.fpScoreThreshold) ∧
    ((FpUtils.calculateFPScore p t).classification = FPClassification.TRUE_POSITIVE ↔
      (FpUtils.calculateFPScore p t).score < t.uncertainThreshold) := by
  rw [utils_classification_eq p t]
  exact classifyByScore_spec _ t h1

/-- Witness for C3 at a concrete input: the empty problem record under the
default thresholds. -/
theorem fp_c3_witness :
    (0 ≤ DEFAULT_FP_THRESHOLDS.uncertainThreshold ∧
     DEFAULT_FP_THRESHOLDS.uncertainThreshold ≤ DEFAULT_FP_THRESHOLDS.fpScoreThreshold ∧
     DEFAULT_FP_THRESHOLDS.fpScoreThreshold ≤ 1) ∧
    (((FpUtils.calculateFPScore {} DEFAULT_FP_THRESHOLDS).classification =
        FPClassification.FALSE_POSITIVE ↔
      DEFAULT_FP_THRESHOLDS.fpScoreThreshold ≤
        (FpUtils.calculateFPScore {} DEFAULT_FP_THRESHOLDS).score) ∧
    ((FpUtils.calculateFPScore {} DEFAULT_FP_THRESHOLDS).classification =
        FPClassification.UNCERTAIN ↔
      DEFAULT_FP_THRESHOLDS.uncertainThreshold ≤
        (FpUtils.calculateFPScore {} DEFAULT_FP_THRESHOLDS).score ∧
        (FpUtils.calculateFPScore {} DEFAULT_FP_THRESHOLDS).score <
          DEFAULT_FP_THRESHOLDS.fpScoreThreshold) ∧
    ((FpUtils.calculateFPScore {} DEFAULT_FP_THRESHOLDS).classification =
        FPClassification.TRUE_POSITIVE ↔
      (FpUtils.calculateFPScore {} DEFAULT_FP_THRESHOLDS).score <
        DEFAULT_FP_THRESHOLDS.uncertainThreshold)) :=
  ⟨⟨by norm_num [DEFAULT_FP_THRESHOLDS], by norm_num [DEFAULT_FP_THRESHOLDS],
    by norm_num [DEFAULT_FP_THRESHOLDS]⟩,
   fp_c3_classification_consistency {} DEFAULT_FP_THRESHOLDS
     (by norm_num [DEFAULT_FP_THRESHOLDS]) (by norm_num [DEFAULT_FP_THRESHOLDS])
     (by norm_num [DEFAULT_FP_THRESHOLDS])⟩

/-! ## C9: the duration contribution is non-increasing in duration -/

/-- C9: for fixed thresholds, the duration term contributes `0.35` below the
very-short cutoff, `0.20` between the very-short and short cutoffs and `0`
beyond, and its value at a larger duration never exceeds its value at a
smaller one. -/
theorem fp_c9_duration_monotone (t : FPThresholds) (d1 d2 : ℚ) (h : d1 ≤ d2) :
    (FpUtils.durationPart t d2).1 ≤ (FpUtils.durationPart t d1).1 ∧
    (d1 < t.veryShortDurationMinutes → (FpUtils.durationPart t d1).1 = 35/100) ∧
    (¬ d1 < t.veryShortDurationMinutes → d1 < t.shortDurationMinutes →
      (FpUtils.durationPart t d1).1 = 20/100) ∧
    (¬ d1 < t.veryShortDurationMinutes → ¬ d1 < t.shortDurationMinutes →
      (FpUtils.durationPart t d1).1 = 0) := by
  simp only [FpUtils.durationPart]
  refine ⟨?_, ?_, ?_, ?_⟩
  · split_ifs <;> norm_num <;> linarith
  · intro hvs
    rw [if_pos hvs]
  · intro hvs hs
    rw [if_neg hvs, if_pos hs]
  · intro hvs hs
    rw [if_neg hvs, if_neg hs]

/-- Witness for C9 at concrete durations 3 and 7 under the default
thresholds. -/
theorem fp_c9_witness :
    (3 : ℚ) ≤ 7 ∧
    ((FpUtils.durationPart DEFAULT_FP_THRESHOLDS 7).1 ≤
        (FpUtils.durationPart DEFAULT_FP_THRESHOLDS 3).1 ∧
     ((3:ℚ) < DEFAULT_FP_THRESHOLDS.veryShortDurationMinutes →
        (FpUtils.durationPart DEFAULT_FP_THRESHOLDS 3).1 = 35/100) ∧
     (¬ (3:ℚ) < DEFAULT_FP_THRESHOLDS.veryShortDurationMinutes →
        (3:ℚ) < DEFAULT_FP_THRESHOLDS.shortDurationMinutes →
        (FpUtils.durationPart DEFAULT_FP_THRESHOLDS 3).1 = 20/100) ∧
     (¬ (3:ℚ) < DEFAULT_FP_THRESHOLDS.veryShortDurationMinutes →
        ¬ (3:ℚ) < DEFAULT_FP_THRESHOLDS.shortDurationMinutes →
        (FpUtils.durationPart DEFAULT_FP_THRESHOLDS 3).1 = 0)) :=
  ⟨by norm_num, fp_c9_duration_monotone DEFAULT_FP_THRESHOLDS 3 7 (by norm_num)⟩

/-! ## C5: scenario A evaluates to score 0.75 and FALSE_POSITIVE -/

/-- C5: the scenario-A problem (3-minute duration, successful auto-remediation
tokens, severity `RESOURCE_CONTENTION`, zero comments) scores exactly
`0.35 + 0.25 + 0.05 + 0.10 = 0.75` and is classified `FALSE_POSITIVE` under
the default thresholds. -/
theorem fp_c5_scenarioA :
    (FpUtils.calculateFPScore scenarioA DEFAULT_FP_THRESHOLDS).score = 35/100 + 25/100 + 5/100 + 10/100 ∧
    (FpUtils.calculateFPScore scenarioA DEFAULT_FP_THRESHOLDS).score = 75/100 ∧
    (FpUtils.calculateFPScore scenarioA DEFAULT_FP_THRESHOLDS).classification =
      FPClassification.FALSE_POSITIVE := by
  have hrem : FpUtils.detectAutoRemediation scenarioA = (true, true) := by decide
  have hcc : commentCountOf scenarioA = 0 := by decide
  have hsev : LOW_SEVERITY_LEVELS.contains scenarioA.severityLevel = true := by decide
  have hsevm : scenarioA.severityLevel ∈ LOW_SEVERITY_LEVELS := by decide
  have hdur : scenarioA.duration = some 3 := rfl
  refine ⟨?_, ?_, ?_⟩ <;>
    norm_num [FpUtils.calculateFPScore, FpUtils.durationPart, FpUtils.classifyByScore,
      DEFAULT_FP_THRESHOLDS, durOr0, hrem, hcc, hsev, hsevm, hdur, min_def, max_def]

/-! ## C7: duration normalization -/

/-- Counterexample to C7 as stated: scoring a problem whose duration is `-3`
does not return exactly the same result as scoring it with duration `0` —
the reason detail text renders the raw negative duration. -/
theorem fp_c7_counterexample :
    FpUtils.calculateFPScore (c7Problem (some (-3))) DEFAULT_FP_THRESHOLDS ≠
      FpUtils.calculateFPScore (c7Problem (some 0)) DEFAULT_FP_THRESHOLDS := by
  have hf3 : toFixed2 (-3) = "-3.00" := by
    have hfl : ⌊(100 : ℚ) * 3 + 1/2⌋ = 300 := by
      rw [Int.floor_eq_iff] <;> norm_num
    norm_num [toFixed2, toFixed2Abs, hfl, natToStr, natDigitsAux, Nat.digitChar,
      Int.toNat_ofNat]
    all_goals decide
  have hf0 : toFixed2 0 = "0.00" := by
    have hfl : ⌊(100 : ℚ) * 0 + 1/2⌋ = 0 := by
      rw [Int.floor_eq_iff] <;> norm_num
    norm_num [toFixed2, toFixed2Abs, hfl, natToStr, natDigitsAux, Nat.digitChar,
      Int.toNat_ofNat]
    all_goals decide
  have hrem1 : FpUtils.detectAutoRemediation (c7Problem (some (-3))) = (false, false) := by decide
  have hrem0 : FpUtils.detectAutoRemediation (c7Problem (some 0)) = (false, false) := by decide
  have hcc1 : commentCountOf (c7Problem (some (-3))) = 0 := by decide
  have hcc0 : commentCountOf (c7Problem (some 0)) = 0 := by decide
  have hsev : ¬ (c7Problem (some (-3))).severityLevel ∈ LOW_SEVERITY_LEVELS := by decide
  have hsev0 : ¬ (c7Problem (some 0)).severityLevel ∈ LOW_SEVERITY_LEVELS := by decide
  have e1 : (FpUtils.calculateFPScore (c7Problem (some (-3))) DEFAULT_FP_THRESHOLDS).reasons.map
      FPReasonDetail.details = ["Duración: -3.00 min", "Sin comentarios de investigación"] := by
    norm_num [FpUtils.calculateFPScore, FpUtils.durationPart, DEFAULT_FP_THRESHOLDS,
      durOr0, hrem1, hcc1, hsev, hf3, show (c7Problem (some (-3))).duration = some (-3) from rfl]
    decide
  have e0 : (FpUtils.calculateFPScore (c7Problem (some 0)) DEFAULT_FP_THRESHOLDS).reasons.map
      FPReasonDetail.details = ["Duración: 0.00 min", "Sin comentarios de investigación"] := by
    norm_num [FpUtils.calculateFPScore, FpUtils.durationPart, DEFAULT_FP_THRESHOLDS,
      durOr0, hrem0, hcc0, hsev0, hf0, show (c7Problem (some 0)).duration = some 0 from rfl]
    decide
  intro h
  have h2 := congrArg (fun r => r.reasons.map FPReasonDetail.details) h
  simp only [e1, e0] at h2
  exact absurd h2 (by decide)

set_option maxHeartbeats 2000000 in
/-- C7 amended: an absent duration scores exactly like duration `0` (including
detail texts); a negative duration is not rewritten to `0`, but under a
positive very-short cutoff it yields the same score, classification,
confidence and reason codes as duration `0` — only the rendered detail text
can differ. -/
theorem fp_c7_amended (p : Problem) (t : FPThresholds) (d : ℚ)
    (hd : d < 0) (hvs : 0 < t.veryShortDurationMinutes) :
    FpUtils.calculateFPScore { p with duration := none } t =
      FpUtils.calculateFPScore { p with duration := some 0 } t ∧
    (FpUtils.calculateFPScore { p with duration := some d } t).score =
      (FpUtils.calculateFPScore { p with duration := some 0 } t).score ∧
    (FpUtils.calculateFPScore { p with duration := some d } t).classification =
      (FpUtils.calculateFPScore { p with duration := some 0 } t).classification ∧
    (FpUtils.calculateFPScore { p with duration := some d } t).confidence =
      (FpUtils.calculateFPScore { p with duration := some 0 } t).confidence ∧
    (FpUtils.calculateFPScore { p with duration := some d } t).reasons.map
        FPReasonDetail.reason =
      (FpUtils.calculateFPScore { p with duration := some 0 } t).reasons.map
        FPReasonDetail.reason := by
  have h1 : d < t.veryShortDurationMinutes := lt_trans hd hvs
  have h3 : d < 10 := lt_trans hd (by norm_num)
  have h4 : (0:ℚ) < 10 := by norm_num
  have hA : FpUtils.detectAutoRemediation { p with duration := some d } =
      FpUtils.detectAutoRemediation { p with duration := some 0 } := rfl
  have hB : commentCountOf { p with duration := some d } =
      commentCountOf { p with duration := some 0 } := rfl
  have hC : FpUtils.hasManualCloseKeyword { p with duration := some d } =
      FpUtils.hasManualCloseKeyword { p with duration := some 0 } := rfl
  have hA0 : FpUtils.detectAutoRemediation { p with duration := none } =
      FpUtils.detectAutoRemediation { p with duration := some 0 } := rfl
  have hB0 : commentCountOf { p with duration := none } =
      commentCountOf { p with duration := some 0 } := rfl
  have hC0 : FpUtils.hasManualCloseKeyword { p with duration := none } =
      FpUtils.hasManualCloseKeyword { p with duration := some 0 } := rfl
  refine ⟨?_, ?_, ?_, ?_, ?_⟩
  · simp only [FpUtils.calculateFPScore, durOr0, hA0, hB0, hC0]
  all_goals
    simp only [FpUtils.calculateFPScore, FpUtils.durationPart, durOr0,
      if_pos h1, if_pos hvs, h3, h4, true_and, hA, hB, hC,
      List.map_append, List.map_cons, List.map_nil,
      List.length_append, List.length_cons, List.length_nil, apply_ite, ite_self]
  all_goals (split_ifs <;> try rfl)

/-- Witness for the amended C7 at a concrete input: the `ERROR`-severity
fixture with duration `-3` under the default thresholds. -/
theorem fp_c7_amended_witness :
    ((-3 : ℚ) < 0 ∧ 0 < DEFAULT_FP_THRESHOLDS.veryShortDurationMinutes) ∧
    (FpUtils.calculateFPScore { c7Problem none with duration := none } DEFAULT_FP_THRESHOLDS =
      FpUtils.calculateFPScore { c7Problem none with duration := some 0 } DEFAULT_FP_THRESHOLDS ∧
    (FpUtils.calculateFPScore { c7Problem none with duration := some (-3) } DEFAULT_FP_THRESHOLDS).score =
      (FpUtils.calculateFPScore { c7Problem none with duration := some 0 } DEFAULT_FP_THRESHOLDS).score ∧
    (FpUtils.calculateFPScore { c7Problem none with duration := some (-3) } DEFAULT_FP_THRESHOLDS).classification =
      (FpUtils.calculateFPScore { c7Problem none with duration := some 0 } DEFAULT_FP_THRESHOLDS).classification ∧
    (FpUtils.calculateFPScore { c7Problem none with duration := some (-3) } DEFAULT_FP_THRESHOLDS).confidence =
      (FpUtils.calculateFPScore { c7Problem none with duration := some 0 } DEFAULT_FP_THRESHOLDS).confidence ∧
    (FpUtils.calculateFPScore { c7Problem none with duration := some (-3) } DEFAULT_FP_THRESHOLDS).reasons.map
        FPReasonDetail.reason =
      (FpUtils.calculateFPScore { c7Problem none with duration := some 0 } DEFAULT_FP_THRESHOLDS).reasons.map
        FPReasonDetail.reason) :=
  ⟨⟨by norm_num, by norm_num [DEFAULT_FP_THRESHOLDS]⟩,
   fp_c7_amended (c7Problem none) DEFAULT_FP_THRESHOLDS (-3) (by norm_num)
     (by norm_num [DEFAULT_FP_THRESHOLDS])⟩

/-! ## C2: threshold update validation -/

/-- Counterexample to C2 as stated: the update
`SetThresholds({uncertainThreshold: 0.9})` makes the resulting
`uncertainThreshold` exceed the resulting `fpScoreThreshold`, yet it is
accepted and mutates the stored configuration. -/
theorem fp_c2_counterexample :
    (updateThresholds DEFAULT_FP_THRESHOLDS setUnc09).1 = true ∧
    (updateThresholds DEFAULT_FP_THRESHOLDS setUnc09).2 ≠ DEFAULT_FP_THRESHOLDS ∧
    (updateThresholds DEFAULT_FP_THRESHOLDS setUnc09).2.fpScoreThreshold <
      (updateThresholds DEFAULT_FP_THRESHOLDS setUnc09).2.uncertainThreshold := by
  refine ⟨rfl, ?_, by norm_num [updateThresholds, setThresholds, setUnc09, DEFAULT_FP_THRESHOLDS]⟩
  intro h
  have h2 := congrArg FPThresholds.uncertainThreshold h
  norm_num [updateThresholds, setThresholds, setUnc09, DEFAULT_FP_THRESHOLDS] at h2

/-- C2 amended: the update endpoint rejects (and leaves the stored
configuration unchanged) exactly when the requested `fpScoreThreshold` is
present and outside `[0,1]`; the invariant `uncertainThreshold ≤
fpScoreThreshold` is not validated.  In particular
`SetThresholds({fpScoreThreshold: 1.5})` mutates nothing and reports
failure. -/
theorem fp_c2_amended :
    (∀ cur : FPThresholds, updateThresholds cur setFP15 = (false, cur)) ∧
    (∀ (cur : FPThresholds) (p : PartialFPThresholds),
      ((updateThresholds cur p).1 = false ↔
        ∃ v, p.fpScoreThreshold = some v ∧ (v < 0 ∨ 1 < v))) ∧
    (∀ (cur : FPThresholds) (p : PartialFPThresholds),
      (updateThresholds cur p).2 =
        if (updateThresholds cur p).1 then setThresholds cur p else cur) := by
  refine ⟨?_, ?_, ?_⟩
  · intro cur
    norm_num [updateThresholds, setFP15]
  · intro cur p
    unfold updateThresholds
    cases hp : p.fpScoreThreshold with
    | none => simp [hp]
    | some v =>
      by_cases hv : v < 0 ∨ v > 1
      · have hv2 : v < 0 ∨ 1 < v := by simpa [gt_iff_lt] using hv
        simp [hp, if_pos hv, hv2]
      · have hv2 : ¬ v < 0 ∧ ¬ 1 < v := by
          rw [not_or] at hv
          simpa [gt_iff_lt] using hv
        simp only [hp, if_neg hv]
        constructor
        · intro h
          exact absurd h (by simp)
        · rintro ⟨w, hw, hbad⟩
          injection hw with hw
          subst hw
          rcases hbad with hb | hb
          · exact absurd hb hv2.1
          · exact absurd hb hv2.2
  · intro cur p
    unfold updateThresholds
    cases p.fpScoreThreshold with
    | none => simp
    | some v =>
      by_cases hv : v < 0 ∨ v > 1
      · simp [hv]
      · simp [hv]

/-! ## C1: fast summary path vs scoring-engine path -/

/-- C1 divergence: on the single 30-minute problem `p30`, the aggregation
fast path scores the record `0.15` (its duration tier adds `0.10` for
durations in `[15,60)`) while the scoring engine scores it `0.05`, so the two
summary paths disagree on the average score and are not numerically
identical. -/
theorem fp_c1_divergence :
    fastFPScore p30 = 15/100 ∧
    (FpService.calculateFPScore p30 DEFAULT_FP_THRESHOLDS).score = 5/100 ∧
    (getSummaryFast [p30]).avgFPScore = 15/100 ∧
    (calculateSummaryCore DEFAULT_FP_THRESHOLDS [p30]).avgFPScore = 5/100 ∧
    getSummaryFast [p30] ≠ calculateSummaryCore DEFAULT_FP_THRESHOLDS [p30] := by
  have hrem : FpService.detectAutoRemediation p30 = (false, false) := by decide
  have htok : isAutoRemToken p30.Autoremediado = false := by decide
  have hcc : commentCountOf p30 = 0 := by decide
  have hsevb : LOW_SEVERITY_LEVELS.contains p30.severityLevel = false := by decide
  have hsevm : ¬ p30.severityLevel ∈ LOW_SEVERITY_LEVELS := by decide
  have hdur : p30.duration = some 30 := rfl
  have hq : FpService.wasQuickManualClose p30 = false := by
    norm_num [FpService.wasQuickManualClose, hdur]
  have hfast : fastFPScore p30 = 15/100 := by
    norm_num [fastFPScore, htok, hcc, hsevb, hsevm, hdur, durOr0]
  have hslow : (FpService.calculateFPScore p30 DEFAULT_FP_THRESHOLDS).score = 5/100 := by
    norm_num [FpService.calculateFPScore, FpUtils.durationPart, DEFAULT_FP_THRESHOLDS,
      hrem, hcc, hsevb, hsevm, hq, hdur, durOr0, min_def, max_def]
  have hfastAvg : (getSummaryFast [p30]).avgFPScore = 15/100 := by
    norm_num [getSummaryFast, sumQ, hfast]
  have hslowAvg : (calculateSummaryCore DEFAULT_FP_THRESHOLDS [p30]).avgFPScore = 5/100 := by
    norm_num [calculateSummaryCore, sumQ, hslow]
  refine ⟨hfast, hslow, hfastAvg, hslowAvg, ?_⟩
  intro h
  have h2 := congrArg SummaryCore.avgFPScore h
  rw [hfastAvg, hslowAvg] at h2
  norm_num at h2

/-! ## C8: recurrence result shape -/

/-- The reported problem total of a recurrence entry is the group size. -/
theorem recurrenceEntry_totalProblems (t : FPThresholds)
    (g : AffectedEntity × List GroupedProblem) :
    (recurrenceEntry t g).totalProblems = g.2.length := rfl

/-- C8: every recurrence analysis list contains only entities with at least
two problems observed in the window, is sorted by total problem count in
descending order, and has at most 50 entries. -/
theorem fp_c8_recurrence_shape (t : FPThresholds) (ps : List Problem)
    (dateFrom dateTo : Option String) :
    (∀ e ∈ analyzeEntityRecurrence t ps dateFrom dateTo, 2 ≤ e.totalProblems) ∧
    (analyzeEntityRecurrence t ps dateFrom dateTo).Pairwise
      (fun a b => b.totalProblems ≤ a.totalProblems) ∧
    (analyzeEntityRecurrence t ps dateFrom dateTo).length ≤ 50 := by
  simp only [analyzeEntityRecurrence]
  refine ⟨?_, ?_, ?_⟩
  · intro e he
    rcases List.mem_map.mp he with ⟨g, hg, rfl⟩
    have hg2 : g ∈ ((groupByEntity (unwindEntities
        (ps.filter (startTimeInWindow dateFrom dateTo)))).filter
          fun g => 2 ≤ g.2.length).mergeSort fun a b => b.2.length ≤ a.2.length :=
      List.take_subset _ _ hg
    have hg3 := (List.mergeSort_perm _ _).mem_iff.mp hg2
    have hg4 := List.of_mem_filter hg3
    rw [recurrenceEntry_totalProblems]
    exact of_decide_eq_true hg4
  · have hs := @List.sorted_mergeSort (AffectedEntity × List GroupedProblem)
      (fun a b => decide (b.2.length ≤ a.2.length))
      (fun a b c hab hbc => by
        simp only [decide_eq_true_eq] at *
        omega)
      (fun a b => by
        simp only [Bool.or_eq_true, decide_eq_true_eq]
        omega)
      ((groupByEntity (unwindEntities
        (ps.filter (startTimeInWindow dateFrom dateTo)))).filter
          fun g => 2 ≤ g.2.length)
    have hs2 : (((groupByEntity (unwindEntities
        (ps.filter (startTimeInWindow dateFrom dateTo)))).filter
          (fun g => 2 ≤ g.2.length)).mergeSort
            fun a b => b.2.length ≤ a.2.length).Pairwise
      (fun a b => b.2.length ≤ a.2.length) :=
      hs.imp fun h => of_decide_eq_true h
    have hs3 := hs2.sublist (List.take_sublist 50 _)
    exact hs3.map _ fun a b h => by
      simpa [recurrenceEntry_totalProblems] using h
  · rw [List.length_map]
    exact List.length_take_le _ _

/-- Witness instantiating C8 at a concrete store: the two-problem recurrence
fixture under the default thresholds and an unbounded window. -/
theorem fp_c8_witness :
    (∀ e ∈ analyzeEntityRecurrence DEFAULT_FP_THRESHOLDS [recProblemA, recProblemB] none none,
      2 ≤ e.totalProblems) ∧
    (analyzeEntityRecurrence DEFAULT_FP_THRESHOLDS [recProblemA, recProblemB] none none).Pairwise
      (fun a b => b.totalProblems ≤ a.totalProblems) ∧
    (analyzeEntityRecurrence DEFAULT_FP_THRESHOLDS [recProblemA, recProblemB] none none).length ≤ 50 :=
  fp_c8_recurrence_shape DEFAULT_FP_THRESHOLDS [recProblemA, recProblemB] none none

/-! ## C4: recurrence false-positive rate -/

/-- Counterexample to C4 as stated: on the two-problem `HOST-1` store, the
recurrence analyzer reports `falsePositiveRate = 1`, yet re-running the
scoring engine on each grouped problem record itself (with its actual
severity `ERROR` and its actual comment digest) classifies both problems
`UNCERTAIN`, so the fraction the claim prescribes is `0`. -/
theorem fp_c4_counterexample :
    (analyzeEntityRecurrence DEFAULT_FP_THRESHOLDS [recProblemA, recProblemB] none none).map
        EntityRecurrenceAnalysis.falsePositiveRate = [1] ∧
    (FpService.calculateFPScore recProblemA DEFAULT_FP_THRESHOLDS).classification =
      FPClassification.UNCERTAIN ∧
    (FpService.calculateFPScore recProblemB DEFAULT_FP_THRESHOLDS).classification =
      FPClassification.UNCERTAIN := by
  have hBA : mockProblem (pushRecord recProblemB) = mockProblem (pushRecord recProblemA) := rfl
  have hmrem : FpService.detectAutoRemediation (mockProblem (pushRecord recProblemA)) =
      (true, false) := by decide
  have hmcc : commentCountOf (mockProblem (pushRecord recProblemA)) = 0 := by decide
  have hmscan : FpService.wasQuickManualClose.wasQuickManualCloseScan
      (mockProblem (pushRecord recProblemA)) = false := by decide
  have hmdur : (mockProblem (pushRecord recProblemA)).duration = some 3 := rfl
  have hmsev : (mockProblem (pushRecord recProblemA)).severityLevel ∈ LOW_SEVERITY_LEVELS := by
    decide
  have hmsevb : LOW_SEVERITY_LEVELS.contains
      (mockProblem (pushRecord recProblemA)).severityLevel = true := by decide
  have hmq : FpService.wasQuickManualClose (mockProblem (pushRecord recProblemA)) = false := by
    norm_num [FpService.wasQuickManualClose, hmdur, hmscan]
  have hmcls : (FpService.calculateFPScore (mockProblem (pushRecord recProblemA))
      DEFAULT_FP_THRESHOLDS).classification = FPClassification.FALSE_POSITIVE := by
    norm_num [FpService.calculateFPScore, FpUtils.durationPart, DEFAULT_FP_THRESHOLDS,
      durOr0, hmrem, hmcc, hmq, hmsev, hmsevb, hmdur, min_def, max_def]
  have hmockA : mockIsFP DEFAULT_FP_THRESHOLDS (pushRecord recProblemA) = true := by
    simp [mockIsFP, hmcls]
  have hmockB : mockIsFP DEFAULT_FP_THRESHOLDS (pushRecord recProblemB) = true := by
    simp [mockIsFP, hBA, hmcls]
  have hgroup : groupByEntity (unwindEntities
      ([recProblemA, recProblemB].filter (startTimeInWindow none none))) =
      [(recEntity, [pushRecord recProblemA, pushRecord recProblemB])] := by
    have hu : unwindEntities ([recProblemA, recProblemB].filter (startTimeInWindow none none)) =
        [(recEntity, pushRecord recProblemA), (recEntity, pushRecord recProblemB)] := rfl
    rw [hu]
    simp [groupByEntity]
  have hrate : (recurrenceEntry DEFAULT_FP_THRESHOLDS
      (recEntity, [pushRecord recProblemA, pushRecord recProblemB])).falsePositiveRate = 1 := by
    norm_num [recurrenceEntry, hmockA, hmockB]
  have hpipeline : analyzeEntityRecurrence DEFAULT_FP_THRESHOLDS [recProblemA, recProblemB]
      none none = [recurrenceEntry DEFAULT_FP_THRESHOLDS
        (recEntity, [pushRecord recProblemA, pushRecord recProblemB])] := by
    simp [analyzeEntityRecurrence, hgroup]
  have hrem : FpService.detectAutoRemediation recProblemA = (true, false) := by decide
  have hcc : commentCountOf recProblemA = 1 := by decide
  have hscan : FpService.wasQuickManualClose.wasQuickManualCloseScan recProblemA = false := by
    decide
  have hdur : recProblemA.duration = some 3 := rfl
  have hsevb : LOW_SEVERITY_LEVELS.contains recProblemA.severityLevel = false := by decide
  have hsevm : ¬ recProblemA.severityLevel ∈ LOW_SEVERITY_LEVELS := by decide
  have hq : FpService.wasQuickManualClose recProblemA = false := by
    norm_num [FpService.wasQuickManualClose, hdur, hscan]
  have hclsA : (FpService.calculateFPScore recProblemA DEFAULT_FP_THRESHOLDS).classification =
      FPClassification.UNCERTAIN := by
    norm_num [FpService.calculateFPScore, FpUtils.durationPart, DEFAULT_FP_THRESHOLDS,
      durOr0, hrem, hcc, hq, hsevb, hsevm, hdur, min_def, max_def]
  have hremB : FpService.detectAutoRemediation recProblemB = (true, false) := by decide
  have hccB : commentCountOf recProblemB = 1 := by decide
  have hscanB : FpService.wasQuickManualClose.wasQuickManualCloseScan recProblemB = false := by
    decide
  have hdurB : recProblemB.duration = some 3 := rfl
  have hsevbB : LOW_SEVERITY_LEVELS.contains recProblemB.severityLevel = false := by decide
  have hsevmB : ¬ recProblemB.severityLevel ∈ LOW_SEVERITY_LEVELS := by decide
  have hqB : FpService.wasQuickManualClose recProblemB = false := by
    norm_num [FpService.wasQuickManualClose, hdurB, hscanB]
  have hclsB : (FpService.calculateFPScore recProblemB DEFAULT_FP_THRESHOLDS).classification =
      FPClassification.UNCERTAIN := by
    norm_num [FpService.calculateFPScore, FpUtils.durationPart, DEFAULT_FP_THRESHOLDS,
      durOr0, hremB, hccB, hqB, hsevbB, hsevmB, hdurB, min_def, max_def]
  refine ⟨?_, hclsA, hclsB⟩
  rw [hpipeline]
  simp [hrate]

/-- C4 amended: the per-entity `falsePositiveRate` equals the number of the
entity's grouped problems whose surrogate record (actual duration defaulted
to 0, actual status and `Autoremediado`, but severity fixed to
`RESOURCE_CONTENTION`, zero comments and no `FuncionoAutoRemediacion`) is
classified `FALSE_POSITIVE` by the scoring engine, divided by the entity's
total problem count. -/
theorem fp_c4_amended (t : FPThresholds) (g : AffectedEntity × List GroupedProblem) :
    (recurrenceEntry t g).totalProblems = g.2.length ∧
    (recurrenceEntry t g).falsePositiveRate =
      (g.2.countP (mockIsFP t) : ℚ) / (g.2.length : ℚ) := by
  refine ⟨rfl, ?_⟩
  simp only [recurrenceEntry]
  by_cases h : 0 < g.2.length
  · rw [if_pos h]
  · rw [if_neg h]
    have h0 : g.2.length = 0 := by omega
    rw [h0]
    norm_num
